import Mathlib

/-!
Verification of the CarveMe benchmark comparison pipeline
(`src/carveme/cli/benchmark.py`).

The pipeline compares predicted phenotypes of metabolic models against
experimental ground truth along two axes: biolog nutrient-utilization and
single-gene essentiality, and aggregates comparisons into an MCC score.

Python sets of identifiers are embedded as `Finset String`; Python dicts
are embedded as association lists (when built from files) or functions
(when total over a fixed key set); the `media_db` dict is threaded as
explicit state so that (non-)mutation of the loaded media can be stated;
a Python `KeyError` on `media_db[medium]` is an `Except.error`.

The functions `mcc`, `benchmark_biolog` and `benchmark_essentiality` are
imported by the benchmark script from `carveme.reconstruction.benchmark`,
which is not part of the given sources; they are modelled from the spec,
each marked `Modelled from the spec:` in its doc comment.
-/

abbrev Gene := String

abbrev Compound := String

/-- A metabolic model, reduced to what the benchmark script reads from it:
its set of gene identifiers (`model.genes`). -/
structure Model where
  genes : Finset Gene

/-- The loaded media database: medium name to compound set
(`load_media_db` result, consumed as `media_db[medium]`). -/
abbrev MediaDB := List (String × Finset Compound)

/-- The four nutrient-source categories, the keys of the Python dicts
`biolog_compounds` and `elements` (strings C, N, P, S). -/
inductive Source where
  | C
  | N
  | P
  | S
deriving DecidableEq, Repr

/-- `biolog_compounds` dict: baseline compound set per category. -/
def biolog_compounds : Source → Finset Compound
  | .C => {"glc__D", "lac__D", "lac__L"}
  | .N => {"nh4"}
  | .P => {"pi"}
  | .S => {"so4"}

/-- `biolog_media` dict: organism to base medium for the biolog benchmark. -/
def biolog_media : List (String × String) :=
  [("bsub", "M9"), ("ecol", "M9"), ("paer", "M9"), ("rsol", "M9"), ("sone", "ShewMM")]

/-- `essentiality_media` dict: organism to base medium for the essentiality
benchmark; `mgen` maps to Python `None`. -/
def essentiality_media : List (String × Option String) :=
  [("bsub", some "LB"), ("ecol", some "M9"), ("mgen", none),
   ("paer", some "M9[succ]"), ("sone", some "LB")]

/-- `biolog_sources` dict: categories tested per organism (total function on
its five keys, which are exactly the keys of `biolog_media`). -/
def biolog_sources : String → List Source
  | "bsub" => [.C, .N, .P, .S]
  | "ecol" => [.C, .N, .P, .S]
  | "paer" => [.C]
  | "rsol" => [.C, .N, .P, .S]
  | "sone" => [.C, .N]
  | _ => []

/-- `load_essentiality_data`, essential half: from the rows
(bigg_id, phenotype) of an organism's table, the set
`{'G_' + x for x in df.query('phenotype == "E"')['bigg_id']}`. -/
def essentialSet (rows : List (String × String)) : Finset Gene :=
  ((rows.filter (fun r => r.2 = "E")).map (fun r => "G_" ++ r.1)).toFinset

/-- `load_essentiality_data`, non-essential half: the set
`{'G_' + x for x in df.query('phenotype == "NE"')['bigg_id']}`. -/
def nonEssentialSet (rows : List (String × String)) : Finset Gene :=
  ((rows.filter (fun r => r.2 = "NE")).map (fun r => "G_" ++ r.1)).toFinset

/-- The `in_vivo` dict of `run_essentiality_benchmark`, as a partial map.
The dict is built as `{x: True for x in essential[org_id] & set(model.genes)}`
and then `.update`d with the `False` entries, so an update entry overwrites
a base entry for the same gene. -/
def inVivoLabels (essential non_essential model_genes : Finset Gene)
    (g : Gene) : Option Bool :=
  let base : Option Bool := if g ∈ essential ∩ model_genes then some true else none
  let upd : Option Bool :=
    if non_essential.Nonempty then
      if g ∈ non_essential ∩ model_genes then some false else none
    else
      if g ∈ model_genes \ essential then some false else none
  match upd with
  | some b => some b
  | none => base

/-- The key set of the `in_vivo` dict. -/
def inVivoKeys (essential non_essential model_genes : Finset Gene) : Finset Gene :=
  (essential ∩ model_genes) ∪
    (if non_essential.Nonempty then non_essential ∩ model_genes
     else model_genes \ essential)

/-- The `in_vivo` dict as an association list (gene, observed label),
one entry per key (keys enumerated in a fixed order). -/
def inVivoList (essential non_essential model_genes : Finset Gene) :
    List (Gene × Bool) :=
  ((inVivoKeys essential non_essential model_genes).sort (· ≤ ·)).filterMap
    (fun g => (inVivoLabels essential non_essential model_genes g).map
      (fun b => (g, b)))

/-- `set(media_db[medium]) - biolog_compounds[source]`: the background
compound set for a biolog category, exact-identifier set subtraction. -/
def biologBackground (medium : Finset Compound) (s : Source) : Finset Compound :=
  medium \ biolog_compounds s

/-- Modelled from the spec: `benchmark_biolog` (imported from
`carveme.reconstruction.benchmark`, absent from the given sources). For each
experimentally tested candidate compound, the prediction capability is
invoked with medium = background ∪ {candidate}; a comparison whose
prediction fails is dropped; each kept comparison pairs the predicted label
with the experimental label. -/
def benchmark_biolog (pred : Finset Compound → Option Bool)
    (background : Finset Compound) (data : List (Compound × Bool)) :
    List (Compound × (Bool × Bool)) :=
  data.filterMap (fun r => (pred (insert r.1 background)).map
    (fun p => (r.1, (p, r.2))))

/-- Modelled from the spec: `benchmark_essentiality` (imported from
`carveme.reconstruction.benchmark`, absent from the given sources). For each
labeled gene, the single-gene-deletion prediction capability is invoked; a
comparison whose prediction fails is dropped; each kept comparison pairs the
predicted label with the observed label. -/
def benchmark_essentiality (pred : Gene → Option Bool)
    (in_vivo : List (Gene × Bool)) : List (Gene × (Bool × Bool)) :=
  in_vivo.filterMap (fun r => (pred r.1).map (fun p => (r.1, (p, r.2))))

/-- `media_db[medium]` for the essentiality benchmark:
`compounds = media_db[medium] if medium else None`. A medium of `None`
performs no lookup; a missing medium name is a `KeyError`. The `media_db`
state is threaded through unchanged by a read. -/
def lookupCompounds (medium : Option String) (db : MediaDB) :
    Except String (Option (Finset Compound)) × MediaDB :=
  match medium with
  | none => (.ok none, db)
  | some m =>
    match db.lookup m with
    | some s => (.ok (some s), db)
    | none => (.error ("KeyError: " ++ m), db)

/-- One organism's comparison records in the essentiality results table:
rows `(org_id, gene, res)`. -/
abbrev EssRec := String × Gene × (Bool × Bool)

/-- One iteration of the `run_essentiality_benchmark` loop body for an
organism: look up the medium (if any), build `in_vivo`, run
`benchmark_essentiality`, tag each result with the organism id. -/
def essentialityStep
    (pred : Model → Option (Finset Compound) → Gene → Option Bool)
    (models : String → Model) (essential non_essential : String → Finset Gene)
    (org : String) (medium : Option String) (db : MediaDB) :
    Except String (List EssRec) × MediaDB :=
  match lookupCompounds medium db with
  | (.error e, db1) => (.error e, db1)
  | (.ok compounds, db1) =>
    let model := models org
    let result := benchmark_essentiality (pred model compounds)
      (inVivoList (essential org) (non_essential org) model.genes)
    (.ok (result.map (fun r => (org, r))), db1)

/-- `results.extend(result)`: prepend one iteration's records to the
records of the remaining iterations (propagating an abort). -/
def accumStep {α : Type} (recs : List α) :
    Except String (List α) × MediaDB → Except String (List α) × MediaDB
  | (.error e, db2) => (.error e, db2)
  | (.ok rs, db2) => (.ok (recs ++ rs), db2)

/-- The `run_essentiality_benchmark` loop over the organism/medium pairs,
accumulating the comparison records; an uncaught `KeyError` aborts the run. -/
def essentialityLoop
    (pred : Model → Option (Finset Compound) → Gene → Option Bool)
    (models : String → Model) (essential non_essential : String → Finset Gene) :
    List (String × Option String) → MediaDB → Except String (List EssRec) × MediaDB
  | [], db => (.ok [], db)
  | (org, medium) :: rest, db =>
    match essentialityStep pred models essential non_essential org medium db with
    | (.error e, db1) => (.error e, db1)
    | (.ok recs, db1) =>
      accumStep recs (essentialityLoop pred models essential non_essential rest db1)

/-- `run_essentiality_benchmark`: the loop over `essentiality_media.items()`. -/
def run_essentiality_benchmark
    (pred : Model → Option (Finset Compound) → Gene → Option Bool)
    (models : String → Model) (essential non_essential : String → Finset Gene)
    (db : MediaDB) : Except String (List EssRec) × MediaDB :=
  essentialityLoop pred models essential non_essential essentiality_media db

/-- One organism's comparison records in the biolog results table:
rows `(org_id, source, met, res)`. -/
abbrev BiologRec := String × Source × Compound × (Bool × Bool)

/-- The inner `for source in biolog_sources[org_id]` loop of
`run_biolog_benchmark`: per source, `media_db[medium]` is read (a missing
medium is a `KeyError`), the background is computed, `benchmark_biolog` runs
and its results are tagged with the organism id and source. -/
def biologOrgLoop (pred : Model → Finset Compound → Option Bool)
    (model : Model) (data : Source → List (Compound × Bool)) (org medium : String) :
    List Source → MediaDB → Except String (List BiologRec) × MediaDB
  | [], db => (.ok [], db)
  | s :: rest, db =>
    match db.lookup medium with
    | none => (.error ("KeyError: " ++ medium), db)
    | some mset =>
      let compounds := biologBackground mset s
      let result := benchmark_biolog (pred model) compounds (data s)
      accumStep (result.map (fun r => (org, s, r)))
        (biologOrgLoop pred model data org medium rest db)

/-- The `run_biolog_benchmark` loop over the organism/medium pairs of
`biolog_media`. -/
def biologLoop (pred : Model → Finset Compound → Option Bool)
    (models : String → Model) (data : String → Source → List (Compound × Bool)) :
    List (String × String) → MediaDB → Except String (List BiologRec) × MediaDB
  | [], db => (.ok [], db)
  | (org, medium) :: rest, db =>
    match biologOrgLoop pred (models org) (data org) org medium
        (biolog_sources org) db with
    | (.error e, db1) => (.error e, db1)
    | (.ok recs, db1) =>
      accumStep recs (biologLoop pred models data rest db1)

/-- `run_biolog_benchmark`: the loop over `biolog_media.items()`. -/
def run_biolog_benchmark (pred : Model → Finset Compound → Option Bool)
    (models : String → Model) (data : String → Source → List (Compound × Bool))
    (db : MediaDB) : Except String (List BiologRec) × MediaDB :=
  biologLoop pred models data biolog_media db

/-- Modelled from the spec: the `ConfusionCounts` (TP, FP, TN, FN) of the
MetricsAggregator (in `carveme.reconstruction.benchmark`, absent from the
given sources), over a batch of (predicted, observed) label pairs, by exact
label agreement. -/
def confusionCounts (pairs : List (Bool × Bool)) : ℕ × ℕ × ℕ × ℕ :=
  (pairs.countP (fun r => r.1 && r.2),
   pairs.countP (fun r => r.1 && !r.2),
   pairs.countP (fun r => !r.1 && !r.2),
   pairs.countP (fun r => !r.1 && r.2))

/-- Modelled from the spec: the `mcc` function (in
`carveme.reconstruction.benchmark`, absent from the given sources).
`MCC = (TP·TN − FP·FN) / sqrt((TP+FP)(TP+FN)(TN+FP)(TN+FN))`, and 0 when
any of the four marginal sums is zero. -/
noncomputable def mcc (tp fp fn tn : ℕ) : ℝ :=
  if tp + fp = 0 ∨ tp + fn = 0 ∨ tn + fp = 0 ∨ tn + fn = 0 then 0
  else ((tp : ℝ) * tn - (fp : ℝ) * fn) /
    Real.sqrt ((((tp + fp) * (tp + fn) * (tn + fp) * (tn + fn) : ℕ) : ℝ))

/-- Modelled from the spec: the MCC of a batch of (predicted, observed)
pairs, derived from its ConfusionCounts. -/
noncomputable def mccOfPairs (pairs : List (Bool × Bool)) : ℝ :=
  mcc (confusionCounts pairs).1 (confusionCounts pairs).2.1
    (confusionCounts pairs).2.2.2 (confusionCounts pairs).2.2.1

/-- The (predicted, observed) pairs of a biolog results table. -/
def biologPairs (recs : List BiologRec) : List (Bool × Bool) :=
  recs.map (fun r => r.2.2.2)

/-- The (predicted, observed) pairs of an essentiality results table. -/
def essPairs (recs : List EssRec) : List (Bool × Bool) :=
  recs.map (fun r => r.2.2)

/-! ### Helper lemmas -/

/-- Closed form of the `in_vivo` dict: the update entries win over the base
entries, and the base is read only where the update is absent. -/
theorem inVivoLabels_def (e n m : Finset Gene) (g : Gene) :
    inVivoLabels e n m g =
      if n.Nonempty then
        (if g ∈ n ∩ m then some false
         else if g ∈ e ∩ m then some true else none)
      else
        (if g ∈ m \ e then some false
         else if g ∈ e ∩ m then some true else none) := by
  unfold inVivoLabels
  by_cases h1 : n.Nonempty <;> simp only [h1, if_true, if_false]
  · by_cases h2 : g ∈ n ∩ m <;> simp [h2]
  · by_cases h2 : g ∈ m \ e <;> simp [h2]

/-! ### Claims -/

/-- C1: for every organism whose label sets satisfy the disjointness
invariant, if `non_essential` is non-empty the `in_vivo` mapping assigns
true to every gene of `essential ∩ model_genes`, false to every gene of
`non_essential ∩ model_genes`, and no label to any other gene; if
`non_essential` is empty it assigns true to every gene of
`essential ∩ model_genes` and false to every model gene not in
`essential`. -/
theorem essentiality_observed_label_policy
    (essential non_essential model_genes : Finset Gene)
    (hdisj : essential ∩ non_essential = ∅) :
    (non_essential.Nonempty →
      (∀ g ∈ essential ∩ model_genes,
        inVivoLabels essential non_essential model_genes g = some true)
      ∧ (∀ g ∈ non_essential ∩ model_genes,
        inVivoLabels essential non_essential model_genes g = some false)
      ∧ (∀ g, g ∉ essential ∩ model_genes → g ∉ non_essential ∩ model_genes →
          inVivoLabels essential non_essential model_genes g = none))
    ∧ (non_essential = ∅ →
      (∀ g ∈ essential ∩ model_genes,
        inVivoLabels essential non_essential model_genes g = some true)
      ∧ (∀ g ∈ model_genes, g ∉ essential →
          inVivoLabels essential non_essential model_genes g = some false)) := by
  have hnotboth : ∀ g, g ∈ essential → g ∉ non_essential := by
    intro g hg hng
    have hmem : g ∈ essential ∩ non_essential := Finset.mem_inter.mpr ⟨hg, hng⟩
    rw [hdisj] at hmem
    exact absurd hmem (Finset.not_mem_empty g)
  constructor
  · intro hne
    refine ⟨?_, ?_, ?_⟩
    · intro g hg
      rcases Finset.mem_inter.mp hg with ⟨hg1, _⟩
      rw [inVivoLabels_def, if_pos hne,
        if_neg (fun hc => hnotboth g hg1 (Finset.mem_inter.mp hc).1), if_pos hg]
    · intro g hg
      rw [inVivoLabels_def, if_pos hne, if_pos hg]
    · intro g hg1 hg2
      rw [inVivoLabels_def, if_pos hne, if_neg hg2, if_neg hg1]
  · intro hempty
    subst hempty
    have hne : ¬(∅ : Finset Gene).Nonempty := by simp
    refine ⟨?_, ?_⟩
    · intro g hg
      rcases Finset.mem_inter.mp hg with ⟨hg1, _⟩
      rw [inVivoLabels_def, if_neg hne,
        if_neg (fun hc => (Finset.mem_sdiff.mp hc).2 hg1), if_pos hg]
    · intro g hg hgne
      rw [inVivoLabels_def, if_neg hne, if_pos (Finset.mem_sdiff.mpr ⟨hg, hgne⟩)]

/-- Witness for C1 at a concrete organism. -/
theorem essentiality_observed_label_policy_witness :
    inVivoLabels {"G_a"} {"G_b"} {"G_a", "G_b", "G_c"} "G_a" = some true :=
  ((essentiality_observed_label_policy {"G_a"} {"G_b"} {"G_a", "G_b", "G_c"}
      (by decide)).1 (by decide)).1 "G_a" (by decide)

/-- C2: the biolog background is the medium's compound set minus the
category's fixed baseline set, by exact-identifier set subtraction; for
category C the baseline is {glc__D, lac__D, lac__L} and the background is
the medium minus exactly those three identifiers, present or not. -/
theorem biolog_background_exact_subtraction :
    (∀ (medium : Finset Compound) (s : Source) (x : Compound),
      x ∈ biologBackground medium s ↔ x ∈ medium ∧ x ∉ biolog_compounds s)
    ∧ biolog_compounds Source.C = {"glc__D", "lac__D", "lac__L"}
    ∧ ∀ medium : Finset Compound,
        biologBackground medium Source.C = medium \ {"glc__D", "lac__D", "lac__L"} :=
  ⟨fun _ _ _ => Finset.mem_sdiff, rfl, fun _ => rfl⟩

/-- C3: MCC is 1 at (TP,FP,FN,TN) = (5,0,0,5), −1 at (0,5,5,0), and exactly
0 whenever any of the four marginal sums is zero. -/
theorem mcc_values_and_zero_marginals :
    mcc 5 0 0 5 = 1 ∧ mcc 0 5 5 0 = -1 ∧
    ∀ tp fp fn tn : ℕ,
      (tp + fp = 0 ∨ tp + fn = 0 ∨ tn + fp = 0 ∨ tn + fn = 0) →
      mcc tp fp fn tn = 0 := by
  have h625 : Real.sqrt 625 = 25 := by
    rw [show (625:ℝ) = 25^2 by norm_num, Real.sqrt_sq (by norm_num : (0:ℝ) ≤ 25)]
  refine ⟨?_, ?_, ?_⟩
  · rw [mcc, if_neg (by norm_num)]
    norm_num [h625]
  · rw [mcc, if_neg (by norm_num)]
    norm_num [h625]
  · intro tp fp fn tn h
    rw [mcc, if_pos h]

/-- Witness for C3's zero-marginal clause at TP = FP = 0. -/
theorem mcc_values_and_zero_marginals_witness :
    (0:ℕ) + 0 = 0 ∧ mcc 0 0 3 4 = 0 :=
  ⟨rfl, mcc_values_and_zero_marginals.2.2 0 0 3 4 (Or.inl rfl)⟩

/-- C5: a gene is in the loaded essential (resp. non-essential) set iff the
table has a row (x, E) (resp. (x, NE)) and the gene is the prefixed
identifier G_ ++ x; in particular every loaded gene identifier carries the
G_ prefix. -/
theorem essentiality_gene_prefixing :
    ∀ (rows : List (String × String)) (g : Gene),
      (g ∈ essentialSet rows ↔ ∃ x, (x, "E") ∈ rows ∧ g = "G_" ++ x)
      ∧ (g ∈ nonEssentialSet rows ↔ ∃ x, (x, "NE") ∈ rows ∧ g = "G_" ++ x)
      ∧ ((g ∈ essentialSet rows ∨ g ∈ nonEssentialSet rows) →
          ∃ x, g = "G_" ++ x) := by
  intro rows g
  have hgen : ∀ (ph : String) (s : Finset Gene),
      s = ((rows.filter (fun r => r.2 = ph)).map (fun r => "G_" ++ r.1)).toFinset →
      (g ∈ s ↔ ∃ x, (x, ph) ∈ rows ∧ g = "G_" ++ x) := by
    intro ph s hs
    subst hs
    simp only [List.mem_toFinset, List.mem_map, List.mem_filter, decide_eq_true_eq]
    constructor
    · rintro ⟨r, ⟨hr, h2⟩, rfl⟩
      refine ⟨r.1, ?_, rfl⟩
      have heq : (r.1, ph) = r := by
        rcases r with ⟨a, b⟩
        simp only at h2
        simp [h2]
      exact heq ▸ hr
    · rintro ⟨x, hx, rfl⟩
      exact ⟨(x, ph), ⟨hx, rfl⟩, rfl⟩
  have hE := hgen "E" (essentialSet rows) rfl
  have hNE := hgen "NE" (nonEssentialSet rows) rfl
  refine ⟨hE, hNE, ?_⟩
  rintro (h | h)
  · rcases hE.mp h with ⟨x, _, hx⟩
    exact ⟨x, hx⟩
  · rcases hNE.mp h with ⟨x, _, hx⟩
    exact ⟨x, hx⟩

/-- Witness for C5 at a one-row table. -/
theorem essentiality_gene_prefixing_witness :
    ∃ x, ("G_b0001" : Gene) = "G_" ++ x :=
  (essentiality_gene_prefixing [("b0001", "E")] "G_b0001").2.2 (Or.inl (by decide))

/-- C9: a gene in both `essential` and `non_essential` (and in the model),
with `non_essential` non-empty, is labeled false: the dict update with the
non-essential entries overwrites the earlier essential entry. -/
theorem duplicate_gene_label_overwritten
    (essential non_essential model_genes : Finset Gene) (g : Gene)
    (hne : non_essential.Nonempty) (_hg1 : g ∈ essential)
    (hg2 : g ∈ non_essential) (hg3 : g ∈ model_genes) :
    inVivoLabels essential non_essential model_genes g = some false := by
  rw [inVivoLabels_def, if_pos hne, if_pos (Finset.mem_inter.mpr ⟨hg2, hg3⟩)]

/-- Witness for C9 at a concrete overlapping gene. -/
theorem duplicate_gene_label_overwritten_witness :
    inVivoLabels {"G_a"} {"G_a"} {"G_a"} "G_a" = some false :=
  duplicate_gene_label_overwritten {"G_a"} {"G_a"} {"G_a"} "G_a"
    (by decide) (by decide) (by decide) (by decide)

/-- C10: the `essentiality_media` entry for mgen is `None`, and an
organism step with medium `None` performs no media lookup: for every
`media_db` it succeeds and passes `none` as the compound set to the
prediction capability. -/
theorem none_medium_skips_lookup :
    essentiality_media.lookup "mgen" = some none
    ∧ ∀ (pred : Model → Option (Finset Compound) → Gene → Option Bool)
        (models : String → Model)
        (essential non_essential : String → Finset Gene)
        (org : String) (db : MediaDB),
        essentialityStep pred models essential non_essential org none db
          = (.ok ((benchmark_essentiality (pred (models org) none)
              (inVivoList (essential org) (non_essential org)
                (models org).genes)).map (fun r => (org, r))), db) :=
  ⟨rfl, fun _ _ _ _ _ _ => rfl⟩

/-! ### Frame lemmas: the media state is never written -/

/-- A media read leaves the media state unchanged. -/
theorem lookupCompounds_snd (medium : Option String) (db : MediaDB) :
    (lookupCompounds medium db).2 = db := by
  cases medium with
  | none => rfl
  | some m =>
    simp only [lookupCompounds]
    cases db.lookup m <;> rfl

/-- Accumulating records leaves the media state of the tail unchanged. -/
theorem accumStep_snd {α : Type} (recs : List α)
    (r : Except String (List α) × MediaDB) : (accumStep recs r).2 = r.2 := by
  rcases r with ⟨res, db⟩
  cases res <;> rfl

/-- Accumulating records preserves an abort of the tail. -/
theorem accumStep_error {α : Type} (recs : List α)
    (r : Except String (List α) × MediaDB) (e : String) (h : r.1 = .error e) :
    (accumStep recs r).1 = .error e := by
  rcases r with ⟨res, db⟩
  cases res with
  | error e2 => exact h
  | ok rs => simp at h

/-- One essentiality iteration leaves the media state unchanged. -/
theorem essentialityStep_snd
    (pred : Model → Option (Finset Compound) → Gene → Option Bool)
    (models : String → Model) (essential non_essential : String → Finset Gene)
    (org : String) (medium : Option String) (db : MediaDB) :
    (essentialityStep pred models essential non_essential org medium db).2 = db := by
  have hl := lookupCompounds_snd medium db
  rcases h : lookupCompounds medium db with ⟨res, db1⟩
  rw [h] at hl
  simp only [essentialityStep, h]
  cases res <;> exact hl

/-- The essentiality loop leaves the media state unchanged. -/
theorem essentialityLoop_snd
    (pred : Model → Option (Finset Compound) → Gene → Option Bool)
    (models : String → Model) (essential non_essential : String → Finset Gene) :
    ∀ (entries : List (String × Option String)) (db : MediaDB),
      (essentialityLoop pred models essential non_essential entries db).2 = db := by
  intro entries
  induction entries with
  | nil => intro db; rfl
  | cons p rest ih =>
    intro db
    rcases p with ⟨org, medium⟩
    have hstep := essentialityStep_snd pred models essential non_essential org medium db
    rcases hs : essentialityStep pred models essential non_essential org medium db
      with ⟨res, db1⟩
    rw [hs] at hstep
    simp only [essentialityLoop, hs]
    cases res with
    | error e => exact hstep
    | ok recs =>
      have := accumStep_snd recs
        (essentialityLoop pred models essential non_essential rest db1)
      rw [this, ih db1]
      exact hstep

/-- The inner biolog source loop leaves the media state unchanged. -/
theorem biologOrgLoop_snd (pred : Model → Finset Compound → Option Bool)
    (model : Model) (data : Source → List (Compound × Bool)) (org medium : String) :
    ∀ (sources : List Source) (db : MediaDB),
      (biologOrgLoop pred model data org medium sources db).2 = db := by
  intro sources
  induction sources with
  | nil => intro db; rfl
  | cons s rest ih =>
    intro db
    simp only [biologOrgLoop]
    rcases h : db.lookup medium with _ | mset
    · rfl
    · rw [accumStep_snd]
      exact ih db

/-- The outer biolog loop leaves the media state unchanged. -/
theorem biologLoop_snd (pred : Model → Finset Compound → Option Bool)
    (models : String → Model) (data : String → Source → List (Compound × Bool)) :
    ∀ (entries : List (String × String)) (db : MediaDB),
      (biologLoop pred models data entries db).2 = db := by
  intro entries
  induction entries with
  | nil => intro db; rfl
  | cons p rest ih =>
    intro db
    rcases p with ⟨org, medium⟩
    have hstep := biologOrgLoop_snd pred (models org) (data org) org medium
      (biolog_sources org) db
    rcases hs : biologOrgLoop pred (models org) (data org) org medium
      (biolog_sources org) db with ⟨res, db1⟩
    rw [hs] at hstep
    simp only [biologLoop, hs]
    cases res with
    | error e => exact hstep
    | ok recs =>
      rw [accumStep_snd, ih db1]
      exact hstep

/-- C8: running the biolog and essentiality benchmarks leaves the loaded
media mapping unchanged; in particular every medium name resolves to the
same compound set after a run as it did as loaded. -/
theorem media_db_unchanged_by_benchmarks :
    ∀ (predB : Model → Finset Compound → Option Bool)
      (predE : Model → Option (Finset Compound) → Gene → Option Bool)
      (models : String → Model) (data : String → Source → List (Compound × Bool))
      (essential non_essential : String → Finset Gene) (db : MediaDB),
      (run_biolog_benchmark predB models data db).2 = db
      ∧ (run_essentiality_benchmark predE models essential non_essential db).2 = db
      ∧ ∀ name : String,
          ((run_biolog_benchmark predB models data db).2).lookup name
              = db.lookup name
          ∧ ((run_essentiality_benchmark predE models essential
              non_essential db).2).lookup name = db.lookup name := by
  intro predB predE models data essential non_essential db
  have h1 : (run_biolog_benchmark predB models data db).2 = db :=
    biologLoop_snd predB models data biolog_media db
  have h2 : (run_essentiality_benchmark predE models essential non_essential db).2
      = db :=
    essentialityLoop_snd predE models essential non_essential essentiality_media db
  exact ⟨h1, h2, fun name => ⟨by rw [h1], by rw [h2]⟩⟩

/-! ### Missing-medium lemmas -/

/-- Accumulation inversion: an abort of the accumulated result is an abort
of the tail. -/
theorem accumStep_error_inv {α : Type} (recs : List α)
    (r : Except String (List α) × MediaDB) (e : String)
    (h : (accumStep recs r).1 = .error e) : r.1 = .error e := by
  rcases r with ⟨res, db⟩
  cases res with
  | error e2 => exact h
  | ok rs => simp [accumStep] at h

/-- A non-trivial source loop with a missing medium aborts with the
corresponding KeyError. -/
theorem biologOrgLoop_missing (pred : Model → Finset Compound → Option Bool)
    (model : Model) (data : Source → List (Compound × Bool)) (org medium : String)
    (sources : List Source) (db : MediaDB)
    (hne : sources ≠ []) (hdb : db.lookup medium = none) :
    (biologOrgLoop pred model data org medium sources db).1
      = .error ("KeyError: " ++ medium) := by
  cases sources with
  | nil => exact absurd rfl hne
  | cons s rest => simp only [biologOrgLoop, hdb]

/-- Source-loop error inversion: an abort of the source loop is a KeyError
on the organism's medium, which is then missing from the media state. -/
theorem biologOrgLoop_error_inv (pred : Model → Finset Compound → Option Bool)
    (model : Model) (data : Source → List (Compound × Bool)) (org medium : String) :
    ∀ (sources : List Source) (db : MediaDB) (e : String),
      (biologOrgLoop pred model data org medium sources db).1 = .error e →
      db.lookup medium = none ∧ e = "KeyError: " ++ medium := by
  intro sources
  induction sources with
  | nil =>
    intro db e h
    simp [biologOrgLoop] at h
  | cons s rest ih =>
    intro db e h
    by_cases hl : db.lookup medium = none
    · refine ⟨hl, ?_⟩
      rw [biologOrgLoop_missing pred model data org medium (s :: rest) db
        (by simp) hl] at h
      injection h with h2
      exact h2.symm
    · rcases Option.ne_none_iff_exists'.mp hl with ⟨mset, hsome⟩
      simp only [biologOrgLoop, hsome] at h
      exact ih db e (accumStep_error_inv _ _ _ h)

/-- An essentiality-step error is a KeyError on a medium missing from the
media state. -/
theorem essentialityStep_error_inv
    (pred : Model → Option (Finset Compound) → Gene → Option Bool)
    (models : String → Model) (essential non_essential : String → Finset Gene)
    (org : String) (medium : Option String) (db : MediaDB) (e : String)
    (h : (essentialityStep pred models essential non_essential org medium db).1
      = .error e) :
    ∃ name, db.lookup name = none ∧ e = "KeyError: " ++ name := by
  cases medium with
  | none => simp [essentialityStep, lookupCompounds] at h
  | some m =>
    rcases hl : db.lookup m with _ | s
    · refine ⟨m, hl, ?_⟩
      simp only [essentialityStep, lookupCompounds, hl, Except.error.injEq] at h
      exact h.symm
    · simp [essentialityStep, lookupCompounds, hl] at h

/-- If some organism of the list requests a medium missing from the media
state, the essentiality loop aborts with a KeyError naming a missing
medium. -/
theorem essentialityLoop_missing
    (pred : Model → Option (Finset Compound) → Gene → Option Bool)
    (models : String → Model) (essential non_essential : String → Finset Gene) :
    ∀ (entries : List (String × Option String)) (db : MediaDB) (org m : String),
      (org, some m) ∈ entries → db.lookup m = none →
      ∃ name, db.lookup name = none ∧
        (essentialityLoop pred models essential non_essential entries db).1
          = .error ("KeyError: " ++ name) := by
  intro entries
  induction entries with
  | nil =>
    intro db org m hmem _
    exact absurd hmem (List.not_mem_nil _)
  | cons p rest ih =>
    intro db org m hmem hdb
    rcases p with ⟨org2, med2⟩
    cases med2 with
    | none =>
      have hmem2 : (org, some m) ∈ rest := by
        rcases List.mem_cons.mp hmem with h | h
        · simp at h
        · exact h
      obtain ⟨name, hn1, hn2⟩ := ih db org m hmem2 hdb
      refine ⟨name, hn1, ?_⟩
      simp only [essentialityLoop, essentialityStep, lookupCompounds]
      exact accumStep_error _ _ _ hn2
    | some m2 =>
      rcases hl : db.lookup m2 with _ | s
      · refine ⟨m2, hl, ?_⟩
        simp only [essentialityLoop, essentialityStep, lookupCompounds, hl]
      · have hmem2 : (org, some m) ∈ rest := by
          rcases List.mem_cons.mp hmem with h | h
          · exfalso
            rw [Prod.mk.injEq] at h
            rcases h with ⟨h1, h2⟩
            rw [Option.some.injEq] at h2
            rw [h2, hl] at hdb
            exact Option.noConfusion hdb
          · exact h
        obtain ⟨name, hn1, hn2⟩ := ih db org m hmem2 hdb
        refine ⟨name, hn1, ?_⟩
        simp only [essentialityLoop, essentialityStep, lookupCompounds, hl]
        exact accumStep_error _ _ _ hn2

/-- If some organism of the list (each testing at least one source)
requests a medium missing from the media state, the biolog loop aborts with
a KeyError naming a missing medium. -/
theorem biologLoop_missing (pred : Model → Finset Compound → Option Bool)
    (models : String → Model) (data : String → Source → List (Compound × Bool)) :
    ∀ (entries : List (String × String)) (db : MediaDB) (org m : String),
      (∀ p ∈ entries, biolog_sources p.1 ≠ []) →
      (org, m) ∈ entries → db.lookup m = none →
      ∃ name, db.lookup name = none ∧
        (biologLoop pred models data entries db).1
          = .error ("KeyError: " ++ name) := by
  intro entries
  induction entries with
  | nil =>
    intro db org m _ hmem _
    exact absurd hmem (List.not_mem_nil _)
  | cons p rest ih =>
    intro db org m hsrc hmem hdb
    rcases p with ⟨org2, m2⟩
    rcases hl : db.lookup m2 with _ | mset
    · refine ⟨m2, hl, ?_⟩
      have hinner := biologOrgLoop_missing pred (models org2) (data org2) org2 m2
        (biolog_sources org2) db (hsrc (org2, m2) (List.mem_cons_self _ _)) hl
      rcases hi : biologOrgLoop pred (models org2) (data org2) org2 m2
        (biolog_sources org2) db with ⟨res, db1⟩
      rw [hi] at hinner
      simp only [biologLoop, hi]
      cases res with
      | error e => exact hinner
      | ok recs => simp at hinner
    · have hmem2 : (org, m) ∈ rest := by
        rcases List.mem_cons.mp hmem with h | h
        · exfalso
          rw [Prod.mk.injEq] at h
          rcases h with ⟨h1, h2⟩
          rw [h2, hl] at hdb
          exact Option.noConfusion hdb
        · exact h
      have hsrc2 : ∀ q ∈ rest, biolog_sources q.1 ≠ [] :=
        fun q hq => hsrc q (List.mem_cons_of_mem _ hq)
      have hsnd := biologOrgLoop_snd pred (models org2) (data org2) org2 m2
        (biolog_sources org2) db
      rcases hi : biologOrgLoop pred (models org2) (data org2) org2 m2
        (biolog_sources org2) db with ⟨res, db1⟩
      rw [hi] at hsnd
      cases res with
      | error e =>
        have hinv := biologOrgLoop_error_inv pred (models org2) (data org2) org2 m2
          (biolog_sources org2) db e (by rw [hi])
        rw [hinv.1] at hl
        exact Option.noConfusion hl
      | ok recs =>
        obtain ⟨name, hn1, hn2⟩ := ih db org m hsrc2 hmem2 hdb
        refine ⟨name, hn1, ?_⟩
        simp only [biologLoop, hi]
        rw [show db1 = db from hsnd]
        exact accumStep_error _ _ _ hn2

/-- C6: a benchmark step that requests a medium name absent from the loaded
media mapping makes the run fail with a missing-medium KeyError instead of
returning a result, in both the biolog and the essentiality benchmark. -/
theorem missing_medium_fails :
    (∀ (pred : Model → Finset Compound → Option Bool) (models : String → Model)
        (data : String → Source → List (Compound × Bool)) (db : MediaDB)
        (org m : String),
        (org, m) ∈ biolog_media → db.lookup m = none →
        ∃ name, db.lookup name = none ∧
          (run_biolog_benchmark pred models data db).1
            = .error ("KeyError: " ++ name))
    ∧ (∀ (pred : Model → Option (Finset Compound) → Gene → Option Bool)
        (models : String → Model) (essential non_essential : String → Finset Gene)
        (db : MediaDB) (org m : String),
        (org, some m) ∈ essentiality_media → db.lookup m = none →
        ∃ name, db.lookup name = none ∧
          (run_essentiality_benchmark pred models essential non_essential db).1
            = .error ("KeyError: " ++ name)) := by
  constructor
  · intro pred models data db org m hmem hdb
    have hsrc : ∀ p ∈ biolog_media, biolog_sources p.1 ≠ [] := by
      intro p hp
      fin_cases hp <;> simp [biolog_sources]
    exact biologLoop_missing pred models data biolog_media db org m hsrc hmem hdb
  · intro pred models essential non_essential db org m hmem hdb
    exact essentialityLoop_missing pred models essential non_essential
      essentiality_media db org m hmem hdb

/-- Witness for C6: an empty media mapping makes the biolog run abort. -/
theorem missing_medium_fails_witness :
    ∃ name, ([] : MediaDB).lookup name = none ∧
      (run_biolog_benchmark (fun _ _ => some true) (fun _ => ⟨∅⟩)
        (fun _ _ => []) []).1 = .error ("KeyError: " ++ name) :=
  missing_medium_fails.1 (fun _ _ => some true) (fun _ => ⟨∅⟩) (fun _ _ => [])
    [] "bsub" "M9" (by decide) rfl

/-- C4: a prediction-capability failure affects only its own comparison.
Making the essentiality capability fail at one gene yields exactly the
results with that gene's comparisons removed; a biolog comparison whose own
prediction succeeds is kept whatever the capability does elsewhere; and
whether the essentiality run aborts does not depend on the prediction
capability at all (only media lookups abort it), so the remaining
organisms' comparisons still complete and are aggregated. -/
theorem prediction_failure_drops_single_comparison :
    (∀ (pred : Gene → Option Bool) (in_vivo : List (Gene × Bool)) (c : Gene),
      benchmark_essentiality (fun g => if g = c then none else pred g) in_vivo
        = benchmark_essentiality pred (in_vivo.filter (fun r => r.1 != c)))
    ∧ (∀ (pred : Finset Compound → Option Bool) (background : Finset Compound)
        (data : List (Compound × Bool)) (r : Compound × Bool) (p : Bool),
        r ∈ data → pred (insert r.1 background) = some p →
        (r.1, (p, r.2)) ∈ benchmark_biolog pred background data)
    ∧ (∀ (pred1 pred2 : Model → Option (Finset Compound) → Gene → Option Bool)
        (models : String → Model) (essential non_essential : String → Finset Gene)
        (entries : List (String × Option String)) (db : MediaDB) (e : String),
        (essentialityLoop pred1 models essential non_essential entries db).1
            = .error e →
        (essentialityLoop pred2 models essential non_essential entries db).1
            = .error e) := by
  refine ⟨?_, ?_, ?_⟩
  · intro pred in_vivo c
    induction in_vivo with
    | nil => rfl
    | cons r rest ih =>
      simp only [benchmark_essentiality, List.filterMap_cons, List.filter_cons]
        at ih ⊢
      by_cases hc : r.1 = c
      · rw [if_pos hc]
        have hb : (r.1 != c) = false := by simp [hc]
        rw [hb]
        simpa using ih
      · rw [if_neg hc]
        have hb : (r.1 != c) = true := by simp [hc]
        rw [hb]
        cases hp : pred r.1 <;> simp [hp, ih]
  · intro pred background data r p hr hp
    simp only [benchmark_biolog, List.mem_filterMap]
    refine ⟨r, hr, ?_⟩
    rw [hp]
    rfl
  · intro pred1 pred2 models essential non_essential entries
    induction entries with
    | nil =>
      intro db e h
      simp [essentialityLoop] at h
    | cons q rest ih =>
      intro db e h
      rcases q with ⟨org, medium⟩
      cases medium with
      | none =>
        simp only [essentialityLoop, essentialityStep, lookupCompounds] at h ⊢
        exact accumStep_error _ _ _ (ih db e (accumStep_error_inv _ _ _ h))
      | some m =>
        by_cases hl : db.lookup m = none
        · simp only [essentialityLoop, essentialityStep, lookupCompounds, hl]
            at h ⊢
          exact h
        · rcases Option.ne_none_iff_exists'.mp hl with ⟨s, hsome⟩
          simp only [essentialityLoop, essentialityStep, lookupCompounds, hsome]
            at h ⊢
          exact accumStep_error _ _ _ (ih db e (accumStep_error_inv _ _ _ h))

/-- Witness for C4: a successful biolog comparison is kept. -/
theorem prediction_failure_drops_single_comparison_witness :
    ("glc", (true, true)) ∈ benchmark_biolog (fun _ => some true) ∅ [("glc", true)] :=
  prediction_failure_drops_single_comparison.2.1 (fun _ => some true) ∅
    [("glc", true)] ("glc", true) true (by simp) rfl

/-- C7: on identical inputs and the same deterministic prediction
capability, two runs of the comparison pipeline produce identical result
tables, and hence identical confusion counts and identical MCC values. -/
theorem comparison_pipeline_deterministic
    (predB : Model → Finset Compound → Option Bool)
    (predE : Model → Option (Finset Compound) → Gene → Option Bool)
    (models : String → Model) (data : String → Source → List (Compound × Bool))
    (essential non_essential : String → Finset Gene) (db : MediaDB)
    (r1 r2 : Except String (List BiologRec) × MediaDB)
    (s1 s2 : Except String (List EssRec) × MediaDB)
    (h1 : r1 = run_biolog_benchmark predB models data db)
    (h2 : r2 = run_biolog_benchmark predB models data db)
    (h3 : s1 = run_essentiality_benchmark predE models essential non_essential db)
    (h4 : s2 = run_essentiality_benchmark predE models essential non_essential db) :
    r1 = r2 ∧ s1 = s2
    ∧ (∀ recs1 recs2, r1.1 = .ok recs1 → r2.1 = .ok recs2 →
        confusionCounts (biologPairs recs1) = confusionCounts (biologPairs recs2)
        ∧ mccOfPairs (biologPairs recs1) = mccOfPairs (biologPairs recs2))
    ∧ (∀ recs1 recs2, s1.1 = .ok recs1 → s2.1 = .ok recs2 →
        confusionCounts (essPairs recs1) = confusionCounts (essPairs recs2)
        ∧ mccOfPairs (essPairs recs1) = mccOfPairs (essPairs recs2)) := by
  subst h1 h2 h3 h4
  refine ⟨rfl, rfl, ?_, ?_⟩ <;>
    · intro recs1 recs2 ha hb
      rw [ha] at hb
      injection hb with hh
      subst hh
      exact ⟨rfl, rfl⟩

/-- Witness for C7 at concrete inputs. -/
theorem comparison_pipeline_deterministic_witness :
    run_biolog_benchmark (fun _ _ => some true) (fun _ => ⟨∅⟩) (fun _ _ => []) []
      = run_biolog_benchmark (fun _ _ => some true) (fun _ => ⟨∅⟩)
          (fun _ _ => []) [] :=
  (comparison_pipeline_deterministic (fun _ _ => some true)
    (fun _ _ _ => some true) (fun _ => ⟨∅⟩) (fun _ _ => []) (fun _ => ∅)
    (fun _ => ∅) [] _ _ _ _ rfl rfl rfl rfl).1
